import Mathlib

/-!
Shallow embedding of the order lifecycle and payment reconciliation
workflow of the KaanaGas backend (Django/DRF).  Pure data is modelled with
Lean structures; each HTTP handler becomes a function from an explicit
database state (lists of rows) and request data to a status code and the
resulting database state.  Monetary amounts (Django `DecimalField`) are
modelled as exact rationals, timestamps as natural numbers supplied by the
caller (`timezone.now()` becomes an explicit `now` argument).
-/

namespace KaanaGas

/-- Order.ORDER_STATUS choices from orders/models.py. -/
inductive OrderStatus
  | pending
  | confirmed
  | preparing
  | ready_for_pickup
  | out_for_delivery
  | delivered
  | cancelled
  | refunded
deriving DecidableEq, Repr

/-- Order.PAYMENT_STATUS choices from orders/models.py. -/
inductive OrderPaymentStatus
  | pending
  | paid
  | failed
  | refunded
deriving DecidableEq, Repr

/-- Payment.PAYMENT_STATUS choices from orders/models.py. -/
inductive PaymentStatus
  | pending
  | processing
  | completed
  | failed
  | cancelled
  | refunded
deriving DecidableEq, Repr

/-- Delivery.DELIVERY_STATUS choices from riders/models.py. -/
inductive DeliveryStatus
  | assigned
  | accepted
  | picking_up
  | in_transit
  | delivered
  | failed
  | cancelled
deriving DecidableEq, Repr

/-- User roles from the accounts app; `is_customer` etc. are role tests. -/
inductive Role
  | customer
  | vendor
  | rider
  | admin
deriving DecidableEq, Repr

/-- Authenticated principal (accounts.User), reduced to id and role. -/
structure User where
  id : Nat
  role : Role
deriving DecidableEq, Repr

def User.is_customer (u : User) : Bool := u.role = Role.customer

def User.is_vendor (u : User) : Bool := u.role = Role.vendor

def User.is_rider (u : User) : Bool := u.role = Role.rider

def User.is_admin_user (u : User) : Bool := u.role = Role.admin

/-- Order row (orders/models.py), restricted to the fields the claims
touch.  `orderNumber` is kept opaque. -/
structure Order where
  id : Nat
  orderNumber : String
  customerId : Nat
  vendorId : Nat
  riderId : Option Nat
  status : OrderStatus
  paymentStatus : OrderPaymentStatus
  cancellationReason : String
  estimatedDeliveryTime : Option Nat
  actualDeliveryTime : Option Nat
  subtotal : ℚ
  deliveryFee : ℚ
  totalAmount : ℚ
deriving DecidableEq, Repr

/-- OrderItem row (orders/models.py). -/
structure OrderItem where
  orderId : Nat
  gasProductId : Nat
  quantity : Int
  unitPrice : ℚ
  totalPrice : ℚ
  productName : String
  cylinderSize : String
  brand : String
  isRefill : Bool
  customerCylinderSerial : String
deriving DecidableEq, Repr

/-- OrderTracking row (orders/models.py): append-only audit log. -/
structure OrderTracking where
  orderId : Nat
  status : OrderStatus
  notes : String
  updatedBy : Option Nat
deriving DecidableEq, Repr

/-- Parsed fields of the provider callback body
`Body.stkCallback.{CheckoutRequestID, ResultCode, ResultDesc}`; each is
optional because `dict.get` returns `None` on a missing key. -/
structure StkCallback where
  checkoutRequestID : Option String
  resultCode : Option Int
  resultDesc : Option String
deriving DecidableEq, Repr

/-- Payment row (orders/models.py). `gatewayResponse` stores the raw
callback payload. -/
structure Payment where
  id : Nat
  orderId : Nat
  amount : ℚ
  status : PaymentStatus
  externalReference : String
  completedAt : Option Nat
  gatewayResponse : Option StkCallback
  failureReason : Option String
deriving DecidableEq, Repr

/-- Delivery row (riders/models.py).  `riderUserId` is the id of the user
behind `delivery.rider.user`, used by the permission checks. -/
structure Delivery where
  id : Nat
  orderId : Nat
  riderProfileId : Nat
  riderUserId : Nat
  status : DeliveryStatus
  acceptedAt : Option Nat
  pickedUpAt : Option Nat
  deliveredAt : Option Nat
  actualDistance : Option ℚ
  baseFee : ℚ
  distanceFee : ℚ
  totalEarnings : ℚ
  pickupNotes : String
  deliveryNotes : String
deriving DecidableEq, Repr

/-- RiderEarnings row (riders/models.py). -/
structure RiderEarnings where
  riderProfileId : Nat
  deliveryId : Nat
  earningType : String
  amount : ℚ
  description : String
  earningDate : Nat
deriving DecidableEq, Repr

/-- GasProduct row (core/models.py): catalog product with global prices. -/
structure GasProduct where
  id : Nat
  name : String
  cylinderSize : String
  brand : String
  basePrice : ℚ
  refillPrice : ℚ
deriving DecidableEq, Repr

/-- VendorInventory row (vendors/models.py).  `refillPrice` is nullable in
the schema. -/
structure VendorInventory where
  vendorId : Nat
  gasProductId : Nat
  currentStock : Int
  reservedStock : Int
  sellingPrice : ℚ
  refillPrice : Option ℚ
deriving DecidableEq, Repr

/-- VendorInventory.available_stock property: max(0, current - reserved). -/
def VendorInventory.availableStock (v : VendorInventory) : Int :=
  max 0 (v.currentStock - v.reservedStock)

/-- VendorProfile row (vendors/models.py), restricted to the fields used
by the order flow. -/
structure VendorProfile where
  id : Nat
  userId : Nat
  businessName : String
  latitude : Option ℚ
  longitude : Option ℚ
  deliveryRadius : Int
  minimumOrderAmount : ℚ
  deliveryFee : ℚ
deriving DecidableEq, Repr

/-- Validated item line of an order-creation request (resolved product,
quantity, is_refill flag, optional cylinder serial). -/
structure ItemData where
  gasProduct : GasProduct
  quantity : Int
  isRefill : Bool
  customerCylinderSerial : String
deriving DecidableEq, Repr

/-- Relational state touched by the modelled handlers. -/
structure Db where
  orders : List Order
  orderItems : List OrderItem
  tracking : List OrderTracking
  payments : List Payment
  deliveries : List Delivery
  earnings : List RiderEarnings
deriving DecidableEq, Repr

/-- HTTP status codes the modelled handlers return. -/
inductive HttpStatus
  | ok200
  | created201
  | bad400
  | forbidden403
  | notFound404
  | err500
deriving DecidableEq, Repr

/-- Update the single order row with the given id (`order.save()`). -/
def updateOrderRow (orders : List Order) (oid : Nat) (f : Order → Order) :
    List Order :=
  orders.map (fun o => if o.id == oid then f o else o)

/-- Update the single payment row with the given id (`payment.save()`). -/
def updatePaymentRow (ps : List Payment) (pid : Nat) (f : Payment → Payment) :
    List Payment :=
  ps.map (fun p => if p.id == pid then f p else p)

/-- Update the single delivery row with the given id (`delivery.save()`). -/
def updateDeliveryRow (ds : List Delivery) (did : Nat)
    (f : Delivery → Delivery) : List Delivery :=
  ds.map (fun d => if d.id == did then f d else d)

/-- Payment.objects lookup by external_reference; Django `get` demands
exactly one match, so the handler model inspects the full match list. -/
def paymentsByReference (ps : List Payment) (ref : String) : List Payment :=
  ps.filter (fun p => p.externalReference == ref)

/-- MpesaCallbackView.post (orders/views.py): reconcile an inbound
provider callback against the Payment table.  A missing or empty
CheckoutRequestID is falsy in Python and yields 400; an unmatched
reference yields 404 (Payment.DoesNotExist); a duplicated reference would
raise MultipleObjectsReturned, caught by the blanket `except` as 500, and
a payment whose order row is missing likewise surfaces as 500.  On
ResultCode 0 the payment completes, the order is marked paid and a
tracking row is appended at the order's current status; on any other
result the payment and the order payment status become failed.  Both
matched branches store the raw payload in gateway_response. -/
def mpesaCallbackPost (db : Db) (cb : StkCallback) (now : Nat) :
    HttpStatus × Db :=
  match cb.checkoutRequestID with
  | none => (HttpStatus.bad400, db)
  | some ref =>
    if ref = "" then (HttpStatus.bad400, db)
    else
      match paymentsByReference db.payments ref with
      | [] => (HttpStatus.notFound404, db)
      | [p] =>
        match db.orders.find? (fun o => o.id == p.orderId) with
        | none => (HttpStatus.err500, db)
        | some o =>
          if cb.resultCode = some 0 then
            (HttpStatus.ok200,
              { db with
                orders := updateOrderRow db.orders o.id
                  (fun od => { od with paymentStatus := OrderPaymentStatus.paid }),
                payments := updatePaymentRow db.payments p.id
                  (fun q => { q with
                    status := PaymentStatus.completed,
                    completedAt := some now,
                    gatewayResponse := some cb }),
                tracking := db.tracking ++
                  [{ orderId := o.id, status := o.status,
                     notes := "Payment completed successfully via M-Pesa",
                     updatedBy := some o.customerId }] })
          else
            (HttpStatus.ok200,
              { db with
                orders := updateOrderRow db.orders o.id
                  (fun od => { od with paymentStatus := OrderPaymentStatus.failed }),
                payments := updatePaymentRow db.payments p.id
                  (fun q => { q with
                    status := PaymentStatus.failed,
                    failureReason := cb.resultDesc,
                    gatewayResponse := some cb }) })
      | _ => (HttpStatus.err500, db)

/-- Unit-price resolution in OrderCreateSerializer.create: prefer the
vendor inventory row (refill vs. selling price), fall back to the catalog
product's refill/base price when the vendor has no row.  `none` models the
uncaught runtime errors: a nullable inventory refill_price used as a
number, or a duplicated inventory row (precluded by unique_together). -/
def resolveUnitPrice (inv : List VendorInventory) (vendorId : Nat)
    (it : ItemData) : Option ℚ :=
  match inv.filter (fun r =>
      r.vendorId == vendorId && r.gasProductId == it.gasProduct.id) with
  | [r] => if it.isRefill then r.refillPrice else some r.sellingPrice
  | [] => some (if it.isRefill then it.gasProduct.refillPrice
                else it.gasProduct.basePrice)
  | _ => none

/-- The OrderItem rows built by the creation loop of
OrderCreateSerializer.create, with total_price = quantity * unit_price. -/
def buildOrderItems (inv : List VendorInventory) (vendorId : Nat)
    (oid : Nat) : List ItemData → Option (List OrderItem)
  | [] => some []
  | it :: rest =>
    match resolveUnitPrice inv vendorId it with
    | none => none
    | some up =>
      match buildOrderItems inv vendorId oid rest with
      | none => none
      | some ois =>
        some ({ orderId := oid,
                gasProductId := it.gasProduct.id,
                quantity := it.quantity,
                unitPrice := up,
                totalPrice := it.quantity * up,
                productName := it.gasProduct.name,
                cylinderSize := it.gasProduct.cylinderSize,
                brand := it.gasProduct.brand,
                isRefill := it.isRefill,
                customerCylinderSerial := it.customerCylinderSerial } :: ois)

/-- OrderCreateSerializer.validate_items: reject an empty item list, then
reject the first item with quantity <= 0. -/
def validate_items (items : List ItemData) : Except String (List ItemData) :=
  if items = [] then Except.error "At least one item is required"
  else
    match items.find? (fun i => i.quantity ≤ 0) with
    | some _ => Except.error "Quantity must be greater than 0"
    | none => Except.ok items

/-- OrderCreateSerializer.create: build the order items, accumulate the
subtotal, copy the vendor's flat delivery fee, set total = subtotal + fee,
and produce the initial tracking row ("Order created successfully").
The Order row starts with the model defaults status=pending and
payment_status=pending.  `none` models the uncaught pricing errors of
`resolveUnitPrice` (which in Python abort mid-loop). -/
def orderCreateSerializer_create (inv : List VendorInventory)
    (vendor : VendorProfile) (customerId : Nat) (oid : Nat)
    (orderNumber : String) (items : List ItemData) :
    Option (Order × List OrderItem × OrderTracking) :=
  match buildOrderItems inv vendor.id oid items with
  | none => none
  | some ois =>
    let subtotal : ℚ := (ois.map (fun x => x.totalPrice)).sum
    let order : Order :=
      { id := oid,
        orderNumber := orderNumber,
        customerId := customerId,
        vendorId := vendor.id,
        riderId := none,
        status := OrderStatus.pending,
        paymentStatus := OrderPaymentStatus.pending,
        cancellationReason := "",
        estimatedDeliveryTime := none,
        actualDeliveryTime := none,
        subtotal := subtotal,
        deliveryFee := vendor.deliveryFee,
        totalAmount := subtotal + vendor.deliveryFee }
    let tr : OrderTracking :=
      { orderId := oid, status := OrderStatus.pending,
        notes := "Order created successfully", updatedBy := some customerId }
    some (order, ois, tr)

/-- CreateOrderView.post (POST /orders/create/): 403 unless the caller is
a customer, 400 on validation failure with nothing persisted, otherwise
persist the order, its items and the serializer's single tracking row.
The `none` create outcome is an uncaught exception (500); its partially
written rows are not modelled, no claim depends on that path. -/
def createOrderView_post (db : Db) (user : User) (inv : List VendorInventory)
    (vendor : VendorProfile) (oid : Nat) (orderNumber : String)
    (items : List ItemData) : HttpStatus × Db :=
  if ¬ user.is_customer then (HttpStatus.forbidden403, db)
  else
    match validate_items items with
    | Except.error _ => (HttpStatus.bad400, db)
    | Except.ok its =>
      match orderCreateSerializer_create inv vendor user.id oid orderNumber its with
      | none => (HttpStatus.err500, db)
      | some (o, ois, tr) =>
        (HttpStatus.created201,
          { db with orders := db.orders ++ [o],
                    orderItems := db.orderItems ++ ois,
                    tracking := db.tracking ++ [tr] })

/-- OrderViewSet create action (POST /orders/ through the router): DRF
validates first, then perform_create raises PermissionDenied for
non-customers, then serializer.save() persists the order, items and the
serializer's tracking row, and perform_create appends a second tracking
row with the same status and notes. -/
def orderViewSet_create (db : Db) (user : User) (inv : List VendorInventory)
    (vendor : VendorProfile) (oid : Nat) (orderNumber : String)
    (items : List ItemData) : HttpStatus × Db :=
  match validate_items items with
  | Except.error _ => (HttpStatus.bad400, db)
  | Except.ok its =>
    if ¬ user.is_customer then (HttpStatus.forbidden403, db)
    else
      match orderCreateSerializer_create inv vendor user.id oid orderNumber its with
      | none => (HttpStatus.err500, db)
      | some (o, ois, tr) =>
        let tr2 : OrderTracking :=
          { orderId := o.id, status := OrderStatus.pending,
            notes := "Order created successfully", updatedBy := some user.id }
        (HttpStatus.created201,
          { db with orders := db.orders ++ [o],
                    orderItems := db.orderItems ++ ois,
                    tracking := db.tracking ++ [tr, tr2] })

/-- Vendor-action permission shared by confirm/prepare/ready_for_pickup:
`request.user.is_vendor and order.vendor.user == request.user`. -/
def vendorActionPermitted (user : User) (vendor : VendorProfile) : Bool :=
  user.is_vendor && vendor.userId == user.id

/-- OrderViewSet.confirm: vendor-gated; rejects with 400 when the order is
not pending, otherwise sets status=confirmed, stamps an estimated
delivery time now + estimated_time minutes, and appends a tracking row.
A missing vendor row would be an uncaught error (500). -/
def orderViewSet_confirm (db : Db) (oid : Nat)
    (vendors : List VendorProfile) (user : User) (estimatedTime : Nat)
    (now : Nat) : HttpStatus × Db :=
  match db.orders.find? (fun o => o.id == oid) with
  | none => (HttpStatus.notFound404, db)
  | some order =>
    match vendors.find? (fun v => v.id == order.vendorId) with
    | none => (HttpStatus.err500, db)
    | some vendor =>
      if ¬ vendorActionPermitted user vendor then (HttpStatus.forbidden403, db)
      else if order.status ≠ OrderStatus.pending then (HttpStatus.bad400, db)
      else
        (HttpStatus.ok200,
          { db with
            orders := updateOrderRow db.orders oid (fun o =>
              { o with status := OrderStatus.confirmed,
                       estimatedDeliveryTime := some (now + 60 * estimatedTime) }),
            tracking := db.tracking ++
              [{ orderId := oid, status := OrderStatus.confirmed,
                 notes := "Order confirmed. Estimated delivery time: " ++
                   toString estimatedTime ++ " minutes",
                 updatedBy := some user.id }] })

/-- OrderViewSet.prepare: vendor-gated; performs no status check and
unconditionally sets status=preparing and appends a tracking row. -/
def orderViewSet_prepare (db : Db) (oid : Nat)
    (vendors : List VendorProfile) (user : User) : HttpStatus × Db :=
  match db.orders.find? (fun o => o.id == oid) with
  | none => (HttpStatus.notFound404, db)
  | some order =>
    match vendors.find? (fun v => v.id == order.vendorId) with
    | none => (HttpStatus.err500, db)
    | some vendor =>
      if ¬ vendorActionPermitted user vendor then (HttpStatus.forbidden403, db)
      else
        (HttpStatus.ok200,
          { db with
            orders := updateOrderRow db.orders oid (fun o =>
              { o with status := OrderStatus.preparing }),
            tracking := db.tracking ++
              [{ orderId := oid, status := OrderStatus.preparing,
                 notes := "Order is being prepared",
                 updatedBy := some user.id }] })

/-- OrderViewSet.ready_for_pickup: vendor-gated; performs no status check
and unconditionally sets status=ready_for_pickup plus a tracking row. -/
def orderViewSet_ready_for_pickup (db : Db) (oid : Nat)
    (vendors : List VendorProfile) (user : User) : HttpStatus × Db :=
  match db.orders.find? (fun o => o.id == oid) with
  | none => (HttpStatus.notFound404, db)
  | some order =>
    match vendors.find? (fun v => v.id == order.vendorId) with
    | none => (HttpStatus.err500, db)
    | some vendor =>
      if ¬ vendorActionPermitted user vendor then (HttpStatus.forbidden403, db)
      else
        (HttpStatus.ok200,
          { db with
            orders := updateOrderRow db.orders oid (fun o =>
              { o with status := OrderStatus.ready_for_pickup }),
            tracking := db.tracking ++
              [{ orderId := oid, status := OrderStatus.ready_for_pickup,
                 notes := "Order is ready for pickup",
                 updatedBy := some user.id }] })

/-- Cancellation permission shared by OrderViewSet.cancel and
CancelOrderView.post: the order's customer, the order's vendor user, or
an admin. -/
def cancelPermitted (user : User) (order : Order)
    (vendors : List VendorProfile) : Bool :=
  order.customerId == user.id ||
  (user.is_vendor &&
    (match vendors.find? (fun v => v.id == order.vendorId) with
     | some vendor => vendor.userId == user.id
     | none => false)) ||
  user.is_admin_user

/-- Shared cancellation core of both cancel endpoints: reject with 400
when the status is delivered or cancelled, otherwise set
status=cancelled, record the reason, and append a tracking row. -/
def applyCancel (db : Db) (order : Order) (user : User) (reason : String) :
    HttpStatus × Db :=
  if order.status = OrderStatus.delivered ∨
     order.status = OrderStatus.cancelled then
    (HttpStatus.bad400, db)
  else
    (HttpStatus.ok200,
      { db with
        orders := updateOrderRow db.orders order.id (fun o =>
          { o with status := OrderStatus.cancelled,
                   cancellationReason := reason }),
        tracking := db.tracking ++
          [{ orderId := order.id, status := OrderStatus.cancelled,
             notes := "Order cancelled. Reason: " ++ reason,
             updatedBy := some user.id }] })

/-- OrderViewSet.cancel action: permission check, then the shared
cancellation logic; the reason defaults to "No reason provided". -/
def orderViewSet_cancel (db : Db) (oid : Nat)
    (vendors : List VendorProfile) (user : User) (reason : Option String) :
    HttpStatus × Db :=
  match db.orders.find? (fun o => o.id == oid) with
  | none => (HttpStatus.notFound404, db)
  | some order =>
    if ¬ cancelPermitted user order vendors then (HttpStatus.forbidden403, db)
    else applyCancel db order user (reason.getD "No reason provided")

/-- CancelOrderView.post (POST /orders/cancel/): 400 without an order_id,
404 when the order does not exist, then the same permission and
cancellation logic; the reason defaults to "Customer requested
cancellation". -/
def cancelOrderView_post (db : Db) (orderId : Option Nat)
    (vendors : List VendorProfile) (user : User) (reason : Option String) :
    HttpStatus × Db :=
  match orderId with
  | none => (HttpStatus.bad400, db)
  | some oid =>
    match db.orders.find? (fun o => o.id == oid) with
    | none => (HttpStatus.notFound404, db)
    | some order =>
      if ¬ cancelPermitted user order vendors then
        (HttpStatus.forbidden403, db)
      else applyCancel db order user (reason.getD "Customer requested cancellation")

/-- Distance fee computed by DeliveryViewSet.deliver:
`delivery.actual_distance * 10 if delivery.actual_distance else 0`, where
both None and 0 are falsy. -/
def deliverDistanceFee (actualDistance : Option ℚ) : ℚ :=
  match actualDistance with
  | none => 0
  | some x => if x = 0 then 0 else x * 10

/-- DeliveryViewSet.deliver action: rider-gated; marks the delivery
delivered, sets the order to delivered with actual_delivery_time stamped,
writes the fee breakdown (base fee 100, distance fee 10 per km) onto the
delivery, and creates one RiderEarnings record with
amount = base_fee + distance_fee.  A delivery whose order row is missing
surfaces as an uncaught error (500). -/
def deliveryViewSet_deliver (db : Db) (did : Nat) (user : User)
    (notes : String) (now : Nat) : HttpStatus × Db :=
  match db.deliveries.find? (fun d => d.id == did) with
  | none => (HttpStatus.notFound404, db)
  | some d =>
    if ¬ (user.is_rider && d.riderUserId == user.id) then
      (HttpStatus.forbidden403, db)
    else
      match db.orders.find? (fun o => o.id == d.orderId) with
      | none => (HttpStatus.err500, db)
      | some o =>
        let distanceFee := deliverDistanceFee d.actualDistance
        let totalEarnings : ℚ := 100 + distanceFee
        (HttpStatus.ok200,
          { db with
            deliveries := updateDeliveryRow db.deliveries did (fun dd =>
              { dd with status := DeliveryStatus.delivered,
                        deliveredAt := some now,
                        deliveryNotes := notes,
                        baseFee := 100,
                        distanceFee := distanceFee,
                        totalEarnings := totalEarnings }),
            orders := updateOrderRow db.orders o.id (fun od =>
              { od with status := OrderStatus.delivered,
                        actualDeliveryTime := some now }),
            earnings := db.earnings ++
              [{ riderProfileId := d.riderProfileId,
                 deliveryId := did,
                 earningType := "delivery",
                 amount := totalEarnings,
                 description := "Delivery for order " ++ o.orderNumber,
                 earningDate := now }] })

/-- UpdateDeliveryStatusView.post (POST /riders/update-delivery-status/):
rider-gated; looks the delivery up by id and owning rider, writes the
requested status, and only for status=delivered also stamps the delivery
and the order (status=delivered, actual_delivery_time); no RiderEarnings
record and no fee fields are written on this path. -/
def updateDeliveryStatusView_post (db : Db) (user : User)
    (deliveryId : Option Nat) (newStatus : Option DeliveryStatus)
    (notes : String) (now : Nat) : HttpStatus × Db :=
  if ¬ user.is_rider then (HttpStatus.forbidden403, db)
  else
    match deliveryId, newStatus with
    | none, _ => (HttpStatus.bad400, db)
    | _, none => (HttpStatus.bad400, db)
    | some did, some ns =>
      match db.deliveries.find? (fun d =>
          d.id == did && d.riderUserId == user.id) with
      | none => (HttpStatus.notFound404, db)
      | some d =>
        if ns = DeliveryStatus.picking_up then
          (HttpStatus.ok200,
            { db with
              deliveries := updateDeliveryRow db.deliveries d.id
                (fun dd => { dd with status := ns, pickupNotes := notes }) })
        else if ns = DeliveryStatus.delivered then
          match db.orders.find? (fun o => o.id == d.orderId) with
          | none => (HttpStatus.err500, db)
          | some o =>
            (HttpStatus.ok200,
              { db with
                deliveries := updateDeliveryRow db.deliveries d.id (fun dd =>
                  { dd with status := ns,
                            deliveredAt := some now,
                            deliveryNotes := notes }),
                orders := updateOrderRow db.orders o.id (fun od =>
                  { od with status := OrderStatus.delivered,
                            actualDeliveryTime := some now }) })
        else
          (HttpStatus.ok200,
            { db with
              deliveries := updateDeliveryRow db.deliveries d.id
                (fun dd => { dd with status := ns }) })

/-- DRF permission classes used by the modelled views. -/
inductive DrfPermission
  | isAuthenticated
deriving DecidableEq, Repr

/-- OrderEstimateView.permission_classes in orders/views.py. -/
def orderEstimateView_permission_classes : List DrfPermission :=
  [DrfPermission.isAuthenticated]

/-- MpesaCallbackView.permission_classes in orders/views.py (empty: the
callback is reachable without authentication). -/
def mpesaCallbackView_permission_classes : List DrfPermission := []

/-- DRF permission evaluation: IsAuthenticated admits exactly the
requests carrying an authenticated user. -/
def permitsRequest (ps : List DrfPermission) (user : Option User) : Bool :=
  ps.all (fun p =>
    match p with
    | DrfPermission.isAuthenticated => user.isSome)

/-- Item line of the estimate response body. -/
structure EstimateItem where
  productName : String
  quantity : Int
  unitPrice : ℚ
  totalPrice : ℚ
  inStock : Bool
deriving DecidableEq, Repr

/-- Estimate response body (vendor block reduced to the id). -/
structure EstimateBody where
  vendorId : Nat
  items : List EstimateItem
  subtotal : ℚ
  deliveryFee : ℚ
  totalAmount : ℚ
  distanceKm : ℚ
  canDeliver : Bool
  meetsMinimum : Bool
deriving DecidableEq, Repr

/-- Item pricing loop of OrderEstimateView.post: same price fallback as
order creation, plus an in_stock flag (available_stock >= quantity on an
inventory row, False on the catalog fallback). -/
def buildEstimateItems (inv : List VendorInventory) (vendorId : Nat) :
    List ItemData → Option (List EstimateItem)
  | [] => some []
  | it :: rest =>
    let hit := inv.filter (fun r =>
      r.vendorId == vendorId && r.gasProductId == it.gasProduct.id)
    let priced : Option (ℚ × Bool) :=
      match hit with
      | [r] =>
        match (if it.isRefill then r.refillPrice else some r.sellingPrice) with
        | none => none
        | some up => some (up, r.availableStock ≥ it.quantity)
      | [] => some ((if it.isRefill then it.gasProduct.refillPrice
                     else it.gasProduct.basePrice), false)
      | _ => none
    match priced with
    | none => none
    | some (up, inStock) =>
      match buildEstimateItems inv vendorId rest with
      | none => none
      | some es =>
        some ({ productName := it.gasProduct.name,
                quantity := it.quantity,
                unitPrice := up,
                totalPrice := it.quantity * up,
                inStock := inStock } :: es)

/-- Round to two decimals, modelling the `round(distance, 2)` applied to
the externally computed distance. -/
def round2 (x : ℚ) : ℚ := ((x * 100 + 1 / 2 : ℚ).floor : ℚ) / 100

/-- Python truthiness of a nullable Decimal: None and 0 are falsy. -/
def truthyDecimal (x : Option ℚ) : Bool :=
  match x with
  | none => false
  | some v => v ≠ 0

/-- OrderEstimateView.post (POST /orders/estimate/): guarded by
permission_classes = [IsAuthenticated]; validates the vendor id, prices
each item, computes the distance through the external geodesic library
(passed here as the oracle `geoKm`), and returns the estimate body.  The
delivery fee is the vendor's flat fee on every branch; only can_deliver
depends on the distance.  The handler performs no writes, so the returned
state is the input state on every branch. -/
def orderEstimateView_post (db : Db) (user : Option User)
    (inv : List VendorInventory) (vendors : List VendorProfile)
    (vendorId : Nat) (items : List ItemData)
    (deliveryLat deliveryLng : ℚ) (geoKm : ℚ × ℚ → ℚ × ℚ → ℚ) :
    HttpStatus × Option EstimateBody × Db :=
  if ¬ permitsRequest orderEstimateView_permission_classes user then
    (HttpStatus.forbidden403, none, db)
  else
    match vendors.find? (fun v => v.id == vendorId) with
    | none => (HttpStatus.bad400, none, db)
    | some vendor =>
      match buildEstimateItems inv vendor.id items with
      | none => (HttpStatus.err500, none, db)
      | some eitems =>
        let subtotal : ℚ := (eitems.map (fun x => x.totalPrice)).sum
        let distCanDeliver : ℚ × Bool :=
          if truthyDecimal vendor.latitude && truthyDecimal vendor.longitude then
            match vendor.latitude, vendor.longitude with
            | some la, some lo =>
              let dist := geoKm (la, lo) (deliveryLat, deliveryLng)
              (dist, dist ≤ (vendor.deliveryRadius : ℚ))
            | _, _ => (0, true)
          else (0, true)
        (HttpStatus.ok200,
          some { vendorId := vendor.id,
                 items := eitems,
                 subtotal := subtotal,
                 deliveryFee := vendor.deliveryFee,
                 totalAmount := subtotal + vendor.deliveryFee,
                 distanceKm := round2 distCanDeliver.1,
                 canDeliver := distCanDeliver.2,
                 meetsMinimum := subtotal ≥ vendor.minimumOrderAmount },
          db)

/-! Concrete fixtures used by witnesses and counterexamples. -/

/-- Catalog product fixture. -/
def prodA : GasProduct :=
  { id := 1, name := "13kg Cylinder", cylinderSize := "13kg", brand := "K-Gas",
    basePrice := 2600, refillPrice := 2400 }

/-- Vendor fixture (flat delivery fee 300, user id 20). -/
def vendorA : VendorProfile :=
  { id := 1, userId := 20, businessName := "Kaana Vendor",
    latitude := some 1, longitude := some 36, deliveryRadius := 10,
    minimumOrderAmount := 1000, deliveryFee := 300 }

/-- Vendor inventory fixture: sells prodA at 2500 (refill 2300). -/
def invA : VendorInventory :=
  { vendorId := 1, gasProductId := 1, currentStock := 10, reservedStock := 0,
    sellingPrice := 2500, refillPrice := some 2300 }

/-- Customer fixture. -/
def custA : User := { id := 10, role := Role.customer }

/-- Vendor user fixture (the user behind vendorA). -/
def vendUserA : User := { id := 20, role := Role.vendor }

/-- Rider user fixture. -/
def riderUserA : User := { id := 30, role := Role.rider }

/-- Item lines fixture: 2 x prodA, not a refill. -/
def itemsA : List ItemData :=
  [{ gasProduct := prodA, quantity := 2, isRefill := false,
     customerCylinderSerial := "" }]

/-- Empty database fixture. -/
def dbEmpty : Db :=
  { orders := [], orderItems := [], tracking := [], payments := [],
    deliveries := [], earnings := [] }

/-- Confirmed order fixture awaiting payment. -/
def orderA : Order :=
  { id := 1, orderNumber := "KAA202510120001", customerId := 10,
    vendorId := 1, riderId := none, status := OrderStatus.confirmed,
    paymentStatus := OrderPaymentStatus.pending, cancellationReason := "",
    estimatedDeliveryTime := none, actualDeliveryTime := none,
    subtotal := 5000, deliveryFee := 300, totalAmount := 5300 }

/-- Processing payment fixture for orderA. -/
def paymentA : Payment :=
  { id := 1, orderId := 1, amount := 5300,
    status := PaymentStatus.processing, externalReference := "ws_CO_1",
    completedAt := none, gatewayResponse := none, failureReason := none }

/-- Database with orderA and its processing payment. -/
def dbA : Db :=
  { orders := [orderA], orderItems := [], tracking := [],
    payments := [paymentA], deliveries := [], earnings := [] }

/-- Successful provider callback for paymentA. -/
def cbOk : StkCallback :=
  { checkoutRequestID := some "ws_CO_1", resultCode := some 0,
    resultDesc := some "The service request is processed successfully." }

/-- Delivered order fixture owned by vendorA and custA. -/
def orderDeliveredA : Order :=
  { id := 2, orderNumber := "KAA202510120002", customerId := 10,
    vendorId := 1, riderId := none, status := OrderStatus.delivered,
    paymentStatus := OrderPaymentStatus.paid, cancellationReason := "",
    estimatedDeliveryTime := none, actualDeliveryTime := some 90,
    subtotal := 5000, deliveryFee := 300, totalAmount := 5300 }

/-- Database holding only the delivered order. -/
def dbDelivered : Db :=
  { orders := [orderDeliveredA], orderItems := [], tracking := [],
    payments := [], deliveries := [], earnings := [] }

/-- Order fixture that is out for delivery. -/
def orderOutA : Order :=
  { id := 3, orderNumber := "KAA202510120003", customerId := 10,
    vendorId := 1, riderId := some 30, status := OrderStatus.out_for_delivery,
    paymentStatus := OrderPaymentStatus.paid, cancellationReason := "",
    estimatedDeliveryTime := none, actualDeliveryTime := none,
    subtotal := 5000, deliveryFee := 300, totalAmount := 5300 }

/-- In-transit delivery fixture for orderOutA, rider user 30, 4 km. -/
def deliveryA : Delivery :=
  { id := 1, orderId := 3, riderProfileId := 5, riderUserId := 30,
    status := DeliveryStatus.in_transit, acceptedAt := some 50,
    pickedUpAt := some 60, deliveredAt := none, actualDistance := some 4,
    baseFee := 0, distanceFee := 0, totalEarnings := 0,
    pickupNotes := "", deliveryNotes := "" }

/-- Database with the out-for-delivery order and its delivery row. -/
def dbOut : Db :=
  { orders := [orderOutA], orderItems := [], tracking := [], payments := [],
    deliveries := [deliveryA], earnings := [] }

/-- Expected persisted OrderItem for itemsA priced against invA. -/
def oiC3 : OrderItem :=
  { orderId := 1, gasProductId := 1, quantity := 2, unitPrice := 2500,
    totalPrice := 5000, productName := "13kg Cylinder",
    cylinderSize := "13kg", brand := "K-Gas", isRefill := false,
    customerCylinderSerial := "" }

/-- Expected persisted Order for itemsA priced against invA. -/
def oC3 : Order :=
  { id := 1, orderNumber := "KAA1", customerId := 10, vendorId := 1,
    riderId := none, status := OrderStatus.pending,
    paymentStatus := OrderPaymentStatus.pending, cancellationReason := "",
    estimatedDeliveryTime := none, actualDeliveryTime := none,
    subtotal := 5000, deliveryFee := 300, totalAmount := 5300 }

/-- Expected initial tracking row for the created order. -/
def trC3 : OrderTracking :=
  { orderId := 1, status := OrderStatus.pending,
    notes := "Order created successfully", updatedBy := some 10 }

/-- Item line with quantity zero (invalid). -/
def itemZeroQ : ItemData :=
  { gasProduct := prodA, quantity := 0, isRefill := false,
    customerCylinderSerial := "" }

/-- Invalid item list containing only the zero-quantity line. -/
def itemsZeroQ : List ItemData := [itemZeroQ]

/-- Expected estimate line for itemsA priced against invA (in stock:
available 10 >= 2). -/
def eitemC9 : EstimateItem :=
  { productName := "13kg Cylinder", quantity := 2, unitPrice := 2500,
    totalPrice := 5000, inStock := true }

/-! Claim theorems. -/

/-- Helper: the rows built by the order-creation loop stand in pairwise
relation with the requested item lines: the unit price follows the
inventory-then-catalog resolution, the quantity is copied, and the line
total is quantity times unit price. -/
theorem buildOrderItems_pairwise (inv : List VendorInventory)
    (vid oid : Nat) :
    ∀ (items : List ItemData) (ois : List OrderItem),
      buildOrderItems inv vid oid items = some ois →
      List.Forall₂ (fun (it : ItemData) (oi : OrderItem) =>
        some oi.unitPrice = resolveUnitPrice inv vid it ∧
        oi.quantity = it.quantity ∧
        oi.totalPrice = (oi.quantity : ℚ) * oi.unitPrice) items ois := by
  intro items
  induction items with
  | nil =>
    intro ois h
    simp only [buildOrderItems, Option.some.injEq] at h
    subst h
    exact List.Forall₂.nil
  | cons it rest ih =>
    intro ois h
    simp only [buildOrderItems] at h
    cases hup : resolveUnitPrice inv vid it with
    | none => rw [hup] at h; exact absurd h (by simp)
    | some up =>
      rw [hup] at h
      cases hrest : buildOrderItems inv vid oid rest with
      | none => rw [hrest] at h; exact absurd h (by simp)
      | some tail =>
        rw [hrest] at h
        simp only [Option.some.injEq] at h
        subst h
        exact List.Forall₂.cons ⟨by rw [hup], rfl, rfl⟩ (ih tail hrest)

/-- Helper: on the rows built by the creation loop, mapping the stored
line total agrees with mapping quantity times unit price. -/
theorem buildOrderItems_totalPrice_map (inv : List VendorInventory)
    (vid oid : Nat) :
    ∀ (items : List ItemData) (ois : List OrderItem),
      buildOrderItems inv vid oid items = some ois →
      ois.map (fun x => x.totalPrice) =
        ois.map (fun x => (x.quantity : ℚ) * x.unitPrice) := by
  intro items
  induction items with
  | nil =>
    intro ois h
    simp only [buildOrderItems, Option.some.injEq] at h
    subst h
    rfl
  | cons it rest ih =>
    intro ois h
    simp only [buildOrderItems] at h
    cases hup : resolveUnitPrice inv vid it with
    | none => rw [hup] at h; exact absurd h (by simp)
    | some up =>
      rw [hup] at h
      cases hrest : buildOrderItems inv vid oid rest with
      | none => rw [hrest] at h; exact absurd h (by simp)
      | some tail =>
        rw [hrest] at h
        simp only [Option.some.injEq] at h
        subst h
        simp only [List.map_cons, List.cons.injEq]
        exact ⟨trivial, ih tail hrest⟩

/-- C3: a successfully created order satisfies
total_amount = sum(quantity * unit_price) + vendor delivery fee exactly,
the delivery fee is the vendor's flat fee, total = subtotal + fee, and
each persisted item's unit price follows the vendor-inventory /
catalog-fallback resolution rule. -/
theorem order_create_pricing
    (inv : List VendorInventory) (vendor : VendorProfile)
    (cid oid : Nat) (onum : String) (items : List ItemData)
    (o : Order) (ois : List OrderItem) (tr : OrderTracking)
    (h : orderCreateSerializer_create inv vendor cid oid onum items =
      some (o, ois, tr)) :
    o.totalAmount =
      ((ois.map (fun x => (x.quantity : ℚ) * x.unitPrice)).sum) + vendor.deliveryFee ∧
    o.deliveryFee = vendor.deliveryFee ∧
    o.totalAmount = o.subtotal + o.deliveryFee ∧
    List.Forall₂ (fun (it : ItemData) (oi : OrderItem) =>
      some oi.unitPrice = resolveUnitPrice inv vendor.id it ∧
      oi.quantity = it.quantity ∧
      oi.totalPrice = (oi.quantity : ℚ) * oi.unitPrice) items ois := by
  unfold orderCreateSerializer_create at h
  cases hb : buildOrderItems inv vendor.id oid items with
  | none => rw [hb] at h; exact absurd h (by simp)
  | some ois0 =>
    rw [hb] at h
    simp only [Option.some.injEq, Prod.mk.injEq] at h
    obtain ⟨ho, hois, htr⟩ := h
    subst ho
    subst hois
    subst htr
    refine ⟨?_, rfl, rfl, buildOrderItems_pairwise inv vendor.id oid items ois0 hb⟩
    have hm := buildOrderItems_totalPrice_map inv vendor.id oid items ois0 hb
    show ((ois0.map (fun x => x.totalPrice)).sum) + vendor.deliveryFee = _
    rw [hm]

/-- C3 witness: the pricing theorem at the concrete creation of 2 x prodA
from vendorA with inventory invA (2 * 2500 + 300 = 5300). -/
theorem order_create_pricing_witness :
    oC3.totalAmount =
      (([oiC3].map (fun x => (x.quantity : ℚ) * x.unitPrice)).sum) + vendorA.deliveryFee ∧
    oC3.deliveryFee = vendorA.deliveryFee ∧
    oC3.totalAmount = oC3.subtotal + oC3.deliveryFee ∧
    List.Forall₂ (fun (it : ItemData) (oi : OrderItem) =>
      some oi.unitPrice = resolveUnitPrice [invA] vendorA.id it ∧
      oi.quantity = it.quantity ∧
      oi.totalPrice = (oi.quantity : ℚ) * oi.unitPrice) itemsA [oiC3] :=
  order_create_pricing [invA] vendorA 10 1 "KAA1" itemsA oC3 [oiC3] trC3
    (by
      simp [orderCreateSerializer_create, buildOrderItems, resolveUnitPrice,
        invA, vendorA, prodA, itemsA, oC3, oiC3, trC3]
      norm_num)

/-- Helper: an empty item list or a non-positive quantity makes
validate_items return a validation error. -/
theorem validate_items_error_of_bad (items : List ItemData)
    (hbad : items = [] ∨ ∃ i ∈ items, i.quantity ≤ 0) :
    ∃ msg, validate_items items = Except.error msg := by
  rcases hbad with h | h
  · subst h
    exact ⟨"At least one item is required", rfl⟩
  · unfold validate_items
    by_cases hnil : items = []
    · exact ⟨"At least one item is required", by rw [if_pos hnil]⟩
    · rw [if_neg hnil]
      rcases h with ⟨i, hi, hq⟩
      have hsome : (items.find? (fun i => i.quantity ≤ 0)).isSome := by
        rw [List.find?_isSome]
        exact ⟨i, hi, by simpa using hq⟩
      cases hf : items.find? (fun i => i.quantity ≤ 0) with
      | none => rw [hf] at hsome; simp at hsome
      | some j => exact ⟨"Quantity must be greater than 0", rfl⟩

/-- C4: an order-creation request from a customer whose item list is
empty or contains a non-positive quantity is rejected with a validation
error (400) by both creation endpoints, and the database is unchanged: no
Order, OrderItem or OrderTracking row is written. -/
theorem order_create_invalid_items_rejected
    (db : Db) (user : User) (inv : List VendorInventory)
    (vendor : VendorProfile) (oid : Nat) (onum : String)
    (items : List ItemData)
    (hc : user.is_customer = true)
    (hbad : items = [] ∨ ∃ i ∈ items, i.quantity ≤ 0) :
    createOrderView_post db user inv vendor oid onum items =
      (HttpStatus.bad400, db) ∧
    orderViewSet_create db user inv vendor oid onum items =
      (HttpStatus.bad400, db) := by
  obtain ⟨msg, herr⟩ := validate_items_error_of_bad items hbad
  refine ⟨?_, ?_⟩
  · simp only [createOrderView_post, hc, Bool.not_true, Bool.false_eq_true,
      not_false_eq_true, if_false, herr]
    simp
  · simp only [orderViewSet_create, herr]

/-- C4 witness: the rejection theorem at the concrete zero-quantity
request from custA against the empty database. -/
theorem order_create_invalid_items_rejected_witness :
    createOrderView_post dbEmpty custA [invA] vendorA 1 "KAA1" itemsZeroQ =
      (HttpStatus.bad400, dbEmpty) ∧
    orderViewSet_create dbEmpty custA [invA] vendorA 1 "KAA1" itemsZeroQ =
      (HttpStatus.bad400, dbEmpty) :=
  order_create_invalid_items_rejected dbEmpty custA [invA] vendorA 1 "KAA1"
    itemsZeroQ (by decide) (Or.inr ⟨itemZeroQ, by decide, by decide⟩)

/-- C1: replaying the same successful provider callback is NOT a no-op in
the code: the handler never checks for an already completed Payment, so
the second delivery of the callback appends a second OrderTracking row
(everything else, including completed_at at the same clock value, is
unchanged).  This evaluates the handler at the failing input: dbA holds
one processing payment for order 1 and the success callback cbOk is
delivered twice at the same time 100. -/
theorem mpesa_replay_appends_second_tracking_row :
    (mpesaCallbackPost dbA cbOk 100).2.tracking.length = 1 ∧
    (mpesaCallbackPost (mpesaCallbackPost dbA cbOk 100).2 cbOk 100).2.tracking.length = 2 ∧
    (mpesaCallbackPost (mpesaCallbackPost dbA cbOk 100).2 cbOk 100).2 ≠
      (mpesaCallbackPost dbA cbOk 100).2 ∧
    (mpesaCallbackPost (mpesaCallbackPost dbA cbOk 100).2 cbOk 100).2.orders =
      (mpesaCallbackPost dbA cbOk 100).2.orders ∧
    (mpesaCallbackPost (mpesaCallbackPost dbA cbOk 100).2 cbOk 100).2.payments =
      (mpesaCallbackPost dbA cbOk 100).2.payments := by
  refine ⟨by decide, by decide, by decide, by decide, by decide⟩

/-- C2: behavior of the M-Pesa callback handler.  With a present,
non-empty CheckoutRequestID: no matching payment gives 404 and no state
change; a unique matching payment whose order exists gives, on ResultCode
0, payment completed with completed_at set and the raw payload stored,
order payment_status paid, and exactly one appended tracking row carrying
the order's current status; on any other result code, payment failed with
the result description recorded and the raw payload stored, and order
payment_status failed. -/
theorem mpesa_callback_reconciliation
    (db : Db) (cb : StkCallback) (now : Nat) (ref : String)
    (href : cb.checkoutRequestID = some ref) (hne : ref ≠ "") :
    (paymentsByReference db.payments ref = [] →
      mpesaCallbackPost db cb now = (HttpStatus.notFound404, db)) ∧
    (∀ p o, paymentsByReference db.payments ref = [p] →
      db.orders.find? (fun x => x.id == p.orderId) = some o →
      (cb.resultCode = some 0 →
        mpesaCallbackPost db cb now =
          (HttpStatus.ok200,
            { db with
              orders := updateOrderRow db.orders o.id
                (fun od => { od with paymentStatus := OrderPaymentStatus.paid }),
              payments := updatePaymentRow db.payments p.id
                (fun q => { q with
                  status := PaymentStatus.completed,
                  completedAt := some now,
                  gatewayResponse := some cb }),
              tracking := db.tracking ++
                [{ orderId := o.id, status := o.status,
                   notes := "Payment completed successfully via M-Pesa",
                   updatedBy := some o.customerId }] })) ∧
      (cb.resultCode ≠ some 0 →
        mpesaCallbackPost db cb now =
          (HttpStatus.ok200,
            { db with
              orders := updateOrderRow db.orders o.id
                (fun od => { od with paymentStatus := OrderPaymentStatus.failed }),
              payments := updatePaymentRow db.payments p.id
                (fun q => { q with
                  status := PaymentStatus.failed,
                  failureReason := cb.resultDesc,
                  gatewayResponse := some cb }) }))) := by
  refine ⟨?_, ?_⟩
  · intro h0
    simp only [mpesaCallbackPost, href, if_neg hne, h0]
  · intro p o hp ho
    refine ⟨?_, ?_⟩
    · intro hrc
      simp only [mpesaCallbackPost, href, if_neg hne, hp, ho, if_pos hrc]
    · intro hrc
      simp only [mpesaCallbackPost, href, if_neg hne, hp, ho, if_neg hrc]

/-- C2 witness: the callback theorem applied at the concrete state dbA
and callback cbOk, success branch. -/
theorem mpesa_callback_reconciliation_witness :
    mpesaCallbackPost dbA cbOk 100 =
      (HttpStatus.ok200,
        { dbA with
          orders := updateOrderRow dbA.orders orderA.id
            (fun od => { od with paymentStatus := OrderPaymentStatus.paid }),
          payments := updatePaymentRow dbA.payments paymentA.id
            (fun q => { q with
              status := PaymentStatus.completed,
              completedAt := some 100,
              gatewayResponse := some cbOk }),
          tracking := dbA.tracking ++
            [{ orderId := orderA.id, status := orderA.status,
               notes := "Payment completed successfully via M-Pesa",
               updatedBy := some orderA.customerId }] }) :=
  ((mpesa_callback_reconciliation dbA cbOk 100 "ws_CO_1" rfl (by decide)).2
    paymentA orderA (by decide) (by decide)).1 rfl

/-- C5 counterexample: the prepare action, invoked by the order's own
vendor on an order that is already delivered, is not rejected: it
returns 200, rewrites the status to preparing and appends a tracking
row, so the claimed guard does not exist for prepare. -/
theorem prepare_ignores_status_check :
    (orderViewSet_prepare dbDelivered 2 [vendorA] vendUserA).1 =
      HttpStatus.ok200 ∧
    (orderViewSet_prepare dbDelivered 2 [vendorA] vendUserA).2.orders =
      [{ orderDeliveredA with status := OrderStatus.preparing }] ∧
    (orderViewSet_prepare dbDelivered 2 [vendorA] vendUserA).2.tracking.length = 1 := by
  refine ⟨by decide, by decide, by decide⟩

/-- Helper: applyCancel rejects terminal statuses without touching the
state. -/
theorem applyCancel_rejected (db : Db) (order : Order) (user : User)
    (reason : String)
    (h : order.status = OrderStatus.delivered ∨
         order.status = OrderStatus.cancelled) :
    applyCancel db order user reason = (HttpStatus.bad400, db) := by
  unfold applyCancel
  rw [if_pos h]

/-- Helper: applyCancel on a non-terminal status cancels the order and
appends one tracking row. -/
theorem applyCancel_ok (db : Db) (order : Order) (user : User)
    (reason : String)
    (hnd : order.status ≠ OrderStatus.delivered)
    (hnc : order.status ≠ OrderStatus.cancelled) :
    applyCancel db order user reason =
      (HttpStatus.ok200,
        { db with
          orders := updateOrderRow db.orders order.id (fun o =>
            { o with status := OrderStatus.cancelled,
                     cancellationReason := reason }),
          tracking := db.tracking ++
            [{ orderId := order.id, status := OrderStatus.cancelled,
               notes := "Order cancelled. Reason: " ++ reason,
               updatedBy := some user.id }] }) := by
  unfold applyCancel
  rw [if_neg (by rintro (h | h); exact hnd h; exact hnc h)]

/-- Helper: the OrderViewSet cancel action reduces to applyCancel when the
order is found and the caller is authorized. -/
theorem orderViewSet_cancel_eq (db : Db) (oid : Nat)
    (vendors : List VendorProfile) (user : User) (reason : Option String)
    (order : Order)
    (ho : db.orders.find? (fun o => o.id == oid) = some order)
    (hperm : cancelPermitted user order vendors = true) :
    orderViewSet_cancel db oid vendors user reason =
      applyCancel db order user (reason.getD "No reason provided") := by
  unfold orderViewSet_cancel
  rw [ho]
  simp [hperm]

/-- Helper: the CancelOrderView post reduces to applyCancel when the
order is found and the caller is authorized. -/
theorem cancelOrderView_post_eq (db : Db) (oid : Nat)
    (vendors : List VendorProfile) (user : User) (reason : Option String)
    (order : Order)
    (ho : db.orders.find? (fun o => o.id == oid) = some order)
    (hperm : cancelPermitted user order vendors = true) :
    cancelOrderView_post db (some oid) vendors user reason =
      applyCancel db order user (reason.getD "Customer requested cancellation") := by
  unfold cancelOrderView_post
  simp [ho, hperm]

/-- C5 (amended): only confirm and cancel guard the order state machine.
Confirm on a non-pending order and cancel on a delivered or cancelled
order are rejected with no state change and no tracking row; prepare and
ready_for_pickup perform no status check and succeed from any current
status, appending a tracking row. -/
theorem order_status_action_guards
    (db : Db) (oid : Nat) (vendors : List VendorProfile) (user : User)
    (order : Order) (vendor : VendorProfile) (estimatedTime now : Nat)
    (reason : Option String)
    (ho : db.orders.find? (fun o => o.id == oid) = some order)
    (hv : vendors.find? (fun v => v.id == order.vendorId) = some vendor)
    (hperm : vendorActionPermitted user vendor = true)
    (hcperm : cancelPermitted user order vendors = true) :
    (order.status ≠ OrderStatus.pending →
      orderViewSet_confirm db oid vendors user estimatedTime now =
        (HttpStatus.bad400, db)) ∧
    ((order.status = OrderStatus.delivered ∨
      order.status = OrderStatus.cancelled) →
      orderViewSet_cancel db oid vendors user reason =
        (HttpStatus.bad400, db)) ∧
    ((orderViewSet_prepare db oid vendors user).1 = HttpStatus.ok200 ∧
      (orderViewSet_prepare db oid vendors user).2.tracking.length =
        db.tracking.length + 1) ∧
    ((orderViewSet_ready_for_pickup db oid vendors user).1 =
        HttpStatus.ok200 ∧
      (orderViewSet_ready_for_pickup db oid vendors user).2.tracking.length =
        db.tracking.length + 1) := by
  refine ⟨?_, ?_, ?_, ?_⟩
  · intro hs
    unfold orderViewSet_confirm
    simp [ho, hv, hperm, hs]
  · intro hterm
    rw [orderViewSet_cancel_eq db oid vendors user reason order ho hcperm]
    exact applyCancel_rejected db order user _ hterm
  · unfold orderViewSet_prepare
    simp [ho, hv, hperm]
  · unfold orderViewSet_ready_for_pickup
    simp [ho, hv, hperm]

/-- C5 witness: the guard theorem at the delivered order fixture, acted
on by its vendor. -/
theorem order_status_action_guards_witness :
    (orderDeliveredA.status ≠ OrderStatus.pending →
      orderViewSet_confirm dbDelivered 2 [vendorA] vendUserA 30 100 =
        (HttpStatus.bad400, dbDelivered)) ∧
    ((orderDeliveredA.status = OrderStatus.delivered ∨
      orderDeliveredA.status = OrderStatus.cancelled) →
      orderViewSet_cancel dbDelivered 2 [vendorA] vendUserA none =
        (HttpStatus.bad400, dbDelivered)) ∧
    ((orderViewSet_prepare dbDelivered 2 [vendorA] vendUserA).1 =
        HttpStatus.ok200 ∧
      (orderViewSet_prepare dbDelivered 2 [vendorA] vendUserA).2.tracking.length =
        dbDelivered.tracking.length + 1) ∧
    ((orderViewSet_ready_for_pickup dbDelivered 2 [vendorA] vendUserA).1 =
        HttpStatus.ok200 ∧
      (orderViewSet_ready_for_pickup dbDelivered 2 [vendorA] vendUserA).2.tracking.length =
        dbDelivered.tracking.length + 1) :=
  order_status_action_guards dbDelivered 2 [vendorA] vendUserA
    orderDeliveredA vendorA 30 100 none (by decide) (by decide) (by decide)
    (by decide)

/-- C6: for an authorized caller, both cancellation endpoints reject a
delivered or cancelled order with 400 and an unchanged database, and on
any other status they succeed, setting status=cancelled with the
recorded reason and appending exactly one tracking row. -/
theorem cancel_terminal_guard
    (db : Db) (oid : Nat) (vendors : List VendorProfile) (user : User)
    (reason : Option String) (order : Order)
    (ho : db.orders.find? (fun o => o.id == oid) = some order)
    (hperm : cancelPermitted user order vendors = true) :
    ((order.status = OrderStatus.delivered ∨
      order.status = OrderStatus.cancelled) →
      orderViewSet_cancel db oid vendors user reason =
        (HttpStatus.bad400, db) ∧
      cancelOrderView_post db (some oid) vendors user reason =
        (HttpStatus.bad400, db)) ∧
    (order.status ≠ OrderStatus.delivered →
      order.status ≠ OrderStatus.cancelled →
      orderViewSet_cancel db oid vendors user reason =
        (HttpStatus.ok200,
          { db with
            orders := updateOrderRow db.orders order.id (fun o =>
              { o with status := OrderStatus.cancelled,
                       cancellationReason := reason.getD "No reason provided" }),
            tracking := db.tracking ++
              [{ orderId := order.id, status := OrderStatus.cancelled,
                 notes := "Order cancelled. Reason: " ++
                   reason.getD "No reason provided",
                 updatedBy := some user.id }] }) ∧
      cancelOrderView_post db (some oid) vendors user reason =
        (HttpStatus.ok200,
          { db with
            orders := updateOrderRow db.orders order.id (fun o =>
              { o with status := OrderStatus.cancelled,
                       cancellationReason :=
                         reason.getD "Customer requested cancellation" }),
            tracking := db.tracking ++
              [{ orderId := order.id, status := OrderStatus.cancelled,
                 notes := "Order cancelled. Reason: " ++
                   reason.getD "Customer requested cancellation",
                 updatedBy := some user.id }] })) := by
  refine ⟨?_, ?_⟩
  · intro hterm
    rw [orderViewSet_cancel_eq db oid vendors user reason order ho hperm,
        cancelOrderView_post_eq db oid vendors user reason order ho hperm]
    exact ⟨applyCancel_rejected db order user _ hterm,
           applyCancel_rejected db order user _ hterm⟩
  · intro hnd hnc
    rw [orderViewSet_cancel_eq db oid vendors user reason order ho hperm,
        cancelOrderView_post_eq db oid vendors user reason order ho hperm]
    exact ⟨applyCancel_ok db order user _ hnd hnc,
           applyCancel_ok db order user _ hnd hnc⟩

/-- C6 witness: the cancel theorem at the confirmed order fixture,
cancelled by its own customer. -/
theorem cancel_terminal_guard_witness :
    ((orderA.status = OrderStatus.delivered ∨
      orderA.status = OrderStatus.cancelled) →
      orderViewSet_cancel dbA 1 [vendorA] custA (some "changed my mind") =
        (HttpStatus.bad400, dbA) ∧
      cancelOrderView_post dbA (some 1) [vendorA] custA (some "changed my mind") =
        (HttpStatus.bad400, dbA)) ∧
    (orderA.status ≠ OrderStatus.delivered →
      orderA.status ≠ OrderStatus.cancelled →
      orderViewSet_cancel dbA 1 [vendorA] custA (some "changed my mind") =
        (HttpStatus.ok200,
          { dbA with
            orders := updateOrderRow dbA.orders orderA.id (fun o =>
              { o with status := OrderStatus.cancelled,
                       cancellationReason :=
                         (some "changed my mind").getD "No reason provided" }),
            tracking := dbA.tracking ++
              [{ orderId := orderA.id, status := OrderStatus.cancelled,
                 notes := "Order cancelled. Reason: " ++
                   (some "changed my mind").getD "No reason provided",
                 updatedBy := some custA.id }] }) ∧
      cancelOrderView_post dbA (some 1) [vendorA] custA (some "changed my mind") =
        (HttpStatus.ok200,
          { dbA with
            orders := updateOrderRow dbA.orders orderA.id (fun o =>
              { o with status := OrderStatus.cancelled,
                       cancellationReason :=
                         (some "changed my mind").getD "Customer requested cancellation" }),
            tracking := dbA.tracking ++
              [{ orderId := orderA.id, status := OrderStatus.cancelled,
                 notes := "Order cancelled. Reason: " ++
                   (some "changed my mind").getD "Customer requested cancellation",
                 updatedBy := some custA.id }] })) :=
  cancel_terminal_guard dbA 1 [vendorA] custA (some "changed my mind")
    orderA (by decide) (by decide)

/-- Helper: a row update that keeps payment_status fixed leaves the
per-order payment_status projection of the table unchanged. -/
theorem updateOrderRow_paymentStatus_map (orders : List Order) (oid : Nat)
    (f : Order → Order)
    (hf : ∀ o, (f o).paymentStatus = o.paymentStatus) :
    (updateOrderRow orders oid f).map (fun o => o.paymentStatus) =
      orders.map (fun o => o.paymentStatus) := by
  unfold updateOrderRow
  rw [List.map_map]
  apply List.map_congr_left
  intro o _
  by_cases h : (o.id == oid) = true
  · simp [Function.comp, h, hf]
  · simp [Function.comp, h]

/-- C10: a successful cancellation only rewrites the order's status and
cancellation_reason and appends one tracking row: the Payment table,
OrderItem table, Delivery and earnings tables are untouched, and every
order's payment_status (in particular a paid one) is unchanged, on both
cancellation endpoints. -/
theorem cancel_preserves_payment_state
    (db : Db) (oid : Nat) (vendors : List VendorProfile) (user : User)
    (reason : Option String) (order : Order)
    (ho : db.orders.find? (fun o => o.id == oid) = some order)
    (hperm : cancelPermitted user order vendors = true)
    (hnd : order.status ≠ OrderStatus.delivered)
    (hnc : order.status ≠ OrderStatus.cancelled) :
    (orderViewSet_cancel db oid vendors user reason).2.orders =
      updateOrderRow db.orders order.id (fun o =>
        { o with status := OrderStatus.cancelled,
                 cancellationReason := reason.getD "No reason provided" }) ∧
    (orderViewSet_cancel db oid vendors user reason).2.payments =
      db.payments ∧
    (orderViewSet_cancel db oid vendors user reason).2.orderItems =
      db.orderItems ∧
    (orderViewSet_cancel db oid vendors user reason).2.deliveries =
      db.deliveries ∧
    (orderViewSet_cancel db oid vendors user reason).2.earnings =
      db.earnings ∧
    (orderViewSet_cancel db oid vendors user reason).2.tracking =
      db.tracking ++
        [{ orderId := order.id, status := OrderStatus.cancelled,
           notes := "Order cancelled. Reason: " ++
             reason.getD "No reason provided",
           updatedBy := some user.id }] ∧
    ((orderViewSet_cancel db oid vendors user reason).2.orders.map
        (fun o => o.paymentStatus)) =
      db.orders.map (fun o => o.paymentStatus) ∧
    ((cancelOrderView_post db (some oid) vendors user reason).2.orders.map
        (fun o => o.paymentStatus)) =
      db.orders.map (fun o => o.paymentStatus) ∧
    (cancelOrderView_post db (some oid) vendors user reason).2.payments =
      db.payments := by
  have h1 := orderViewSet_cancel_eq db oid vendors user reason order ho hperm
  have h2 := cancelOrderView_post_eq db oid vendors user reason order ho hperm
  have ha := applyCancel_ok db order user (reason.getD "No reason provided")
    hnd hnc
  have hb := applyCancel_ok db order user
    (reason.getD "Customer requested cancellation") hnd hnc
  rw [h1, h2, ha, hb]
  refine ⟨rfl, rfl, rfl, rfl, rfl, rfl, ?_, ?_, rfl⟩
  · exact updateOrderRow_paymentStatus_map db.orders order.id _ (fun _ => rfl)
  · exact updateOrderRow_paymentStatus_map db.orders order.id _ (fun _ => rfl)

/-- C10 witness: the frame theorem at the confirmed, payment-pending
order fixture cancelled by its customer; dbA also holds a payment row,
which is untouched. -/
theorem cancel_preserves_payment_state_witness :
    (orderViewSet_cancel dbA 1 [vendorA] custA none).2.orders =
      updateOrderRow dbA.orders orderA.id (fun o =>
        { o with status := OrderStatus.cancelled,
                 cancellationReason := (none : Option String).getD "No reason provided" }) ∧
    (orderViewSet_cancel dbA 1 [vendorA] custA none).2.payments =
      dbA.payments ∧
    (orderViewSet_cancel dbA 1 [vendorA] custA none).2.orderItems =
      dbA.orderItems ∧
    (orderViewSet_cancel dbA 1 [vendorA] custA none).2.deliveries =
      dbA.deliveries ∧
    (orderViewSet_cancel dbA 1 [vendorA] custA none).2.earnings =
      dbA.earnings ∧
    (orderViewSet_cancel dbA 1 [vendorA] custA none).2.tracking =
      dbA.tracking ++
        [{ orderId := orderA.id, status := OrderStatus.cancelled,
           notes := "Order cancelled. Reason: " ++
             (none : Option String).getD "No reason provided",
           updatedBy := some custA.id }] ∧
    ((orderViewSet_cancel dbA 1 [vendorA] custA none).2.orders.map
        (fun o => o.paymentStatus)) =
      dbA.orders.map (fun o => o.paymentStatus) ∧
    ((cancelOrderView_post dbA (some 1) [vendorA] custA none).2.orders.map
        (fun o => o.paymentStatus)) =
      dbA.orders.map (fun o => o.paymentStatus) ∧
    (cancelOrderView_post dbA (some 1) [vendorA] custA none).2.payments =
      dbA.payments :=
  cancel_preserves_payment_state dbA 1 [vendorA] custA none orderA
    (by decide) (by decide) (by decide) (by decide)

/-- C7 counterexample: completing a delivery through
POST /riders/update-delivery-status/ marks the order delivered and stamps
actual_delivery_time but creates no RiderEarnings record, so the claimed
earnings creation does not hold on this completion path. -/
theorem update_delivery_status_creates_no_earnings :
    (updateDeliveryStatusView_post dbOut riderUserA (some 1)
      (some DeliveryStatus.delivered) "left at gate" 500).1 =
        HttpStatus.ok200 ∧
    (updateDeliveryStatusView_post dbOut riderUserA (some 1)
      (some DeliveryStatus.delivered) "left at gate" 500).2.orders =
        [{ orderOutA with status := OrderStatus.delivered,
                          actualDeliveryTime := some 500 }] ∧
    (updateDeliveryStatusView_post dbOut riderUserA (some 1)
      (some DeliveryStatus.delivered) "left at gate" 500).2.earnings = [] := by
  refine ⟨by decide, by decide, by decide⟩

/-- C7 (amended): the DeliveryViewSet deliver action sets the order to
delivered with actual_delivery_time stamped and creates exactly one
RiderEarnings record for the delivery with
amount = base fee 100 + distance fee (actual_distance times 10, and 0
when actual_distance is unset); the update-delivery-status endpoint with
status delivered also sets the order to delivered with
actual_delivery_time stamped but creates no RiderEarnings record and
writes no fee fields. -/
theorem delivery_completion_effects
    (db : Db) (did : Nat) (user : User) (notes : String) (now : Nat)
    (d : Delivery) (o : Order)
    (hd : db.deliveries.find? (fun x => x.id == did) = some d)
    (hperm : (user.is_rider && d.riderUserId == user.id) = true)
    (hd2 : db.deliveries.find? (fun x =>
      x.id == did && x.riderUserId == user.id) = some d)
    (ho : db.orders.find? (fun x => x.id == d.orderId) = some o) :
    deliveryViewSet_deliver db did user notes now =
      (HttpStatus.ok200,
        { db with
          deliveries := updateDeliveryRow db.deliveries did (fun dd =>
            { dd with status := DeliveryStatus.delivered,
                      deliveredAt := some now,
                      deliveryNotes := notes,
                      baseFee := 100,
                      distanceFee := deliverDistanceFee d.actualDistance,
                      totalEarnings := 100 + deliverDistanceFee d.actualDistance }),
          orders := updateOrderRow db.orders o.id (fun od =>
            { od with status := OrderStatus.delivered,
                      actualDeliveryTime := some now }),
          earnings := db.earnings ++
            [{ riderProfileId := d.riderProfileId,
               deliveryId := did,
               earningType := "delivery",
               amount := 100 + deliverDistanceFee d.actualDistance,
               description := "Delivery for order " ++ o.orderNumber,
               earningDate := now }] }) ∧
    (deliveryViewSet_deliver db did user notes now).2.earnings.length =
      db.earnings.length + 1 ∧
    deliverDistanceFee d.actualDistance =
      (match d.actualDistance with
       | none => 0
       | some x => x * 10) ∧
    updateDeliveryStatusView_post db user (some did)
        (some DeliveryStatus.delivered) notes now =
      (HttpStatus.ok200,
        { db with
          deliveries := updateDeliveryRow db.deliveries d.id (fun dd =>
            { dd with status := DeliveryStatus.delivered,
                      deliveredAt := some now,
                      deliveryNotes := notes }),
          orders := updateOrderRow db.orders o.id (fun od =>
            { od with status := OrderStatus.delivered,
                      actualDeliveryTime := some now }) }) := by
  have hr : user.is_rider = true := ((Bool.and_eq_true _ _).mp hperm).1
  refine ⟨?_, ?_, ?_, ?_⟩
  · unfold deliveryViewSet_deliver
    simp [hd, hperm, ho]
  · unfold deliveryViewSet_deliver
    simp [hd, hperm, ho]
  · unfold deliverDistanceFee
    cases d.actualDistance with
    | none => rfl
    | some x =>
      by_cases hx : x = 0
      · simp [hx]
      · simp [hx]
  · unfold updateDeliveryStatusView_post
    simp [hr, hd2, ho]

/-- C7 witness: the delivery-completion theorem at the concrete
in-transit delivery fixture (4 km, so the earnings amount is
100 + 4 * 10). -/
theorem delivery_completion_effects_witness :
    deliveryViewSet_deliver dbOut 1 riderUserA "left at gate" 500 =
      (HttpStatus.ok200,
        { dbOut with
          deliveries := updateDeliveryRow dbOut.deliveries 1 (fun dd =>
            { dd with status := DeliveryStatus.delivered,
                      deliveredAt := some 500,
                      deliveryNotes := "left at gate",
                      baseFee := 100,
                      distanceFee := deliverDistanceFee deliveryA.actualDistance,
                      totalEarnings := 100 + deliverDistanceFee deliveryA.actualDistance }),
          orders := updateOrderRow dbOut.orders orderOutA.id (fun od =>
            { od with status := OrderStatus.delivered,
                      actualDeliveryTime := some 500 }),
          earnings := dbOut.earnings ++
            [{ riderProfileId := deliveryA.riderProfileId,
               deliveryId := 1,
               earningType := "delivery",
               amount := 100 + deliverDistanceFee deliveryA.actualDistance,
               description := "Delivery for order " ++ orderOutA.orderNumber,
               earningDate := 500 }] }) ∧
    (deliveryViewSet_deliver dbOut 1 riderUserA "left at gate" 500).2.earnings.length =
      dbOut.earnings.length + 1 ∧
    deliverDistanceFee deliveryA.actualDistance =
      (match deliveryA.actualDistance with
       | none => 0
       | some x => x * 10) ∧
    updateDeliveryStatusView_post dbOut riderUserA (some 1)
        (some DeliveryStatus.delivered) "left at gate" 500 =
      (HttpStatus.ok200,
        { dbOut with
          deliveries := updateDeliveryRow dbOut.deliveries deliveryA.id (fun dd =>
            { dd with status := DeliveryStatus.delivered,
                      deliveredAt := some 500,
                      deliveryNotes := "left at gate" }),
          orders := updateOrderRow dbOut.orders orderOutA.id (fun od =>
            { od with status := OrderStatus.delivered,
                      actualDeliveryTime := some 500 }) }) :=
  delivery_completion_effects dbOut 1 riderUserA "left at gate" 500
    deliveryA orderOutA (by decide) (by decide) (by decide) (by decide)

/-- C8 counterexample: a successful creation through the OrderViewSet
create action writes TWO identical tracking rows (one from the
serializer, one from perform_create), not exactly one. -/
theorem viewset_create_writes_two_tracking_rows :
    (orderViewSet_create dbEmpty custA [invA] vendorA 1 "KAA1" itemsA).1 =
      HttpStatus.created201 ∧
    (orderViewSet_create dbEmpty custA [invA] vendorA 1 "KAA1" itemsA).2.tracking.length = 2 ∧
    ((orderViewSet_create dbEmpty custA [invA] vendorA 1 "KAA1" itemsA).2.tracking.map
      (fun t => t.notes)) =
      ["Order created successfully", "Order created successfully"] := by
  refine ⟨by decide, by decide, by decide⟩

/-- C8 (amended): a successful creation through POST /orders/create/
persists the order with status pending and payment_status pending, all of
its items, and exactly one tracking row with status pending and notes
"Order created successfully"; the OrderViewSet create action persists the
same rows but appends two such tracking rows, one from the serializer and
one from perform_create. -/
theorem order_create_persistence
    (db : Db) (user : User) (inv : List VendorInventory)
    (vendor : VendorProfile) (oid : Nat) (onum : String)
    (items : List ItemData) (o : Order) (ois : List OrderItem)
    (tr : OrderTracking)
    (hc : user.is_customer = true)
    (hval : validate_items items = Except.ok items)
    (hcr : orderCreateSerializer_create inv vendor user.id oid onum items =
      some (o, ois, tr)) :
    createOrderView_post db user inv vendor oid onum items =
      (HttpStatus.created201,
        { db with orders := db.orders ++ [o],
                  orderItems := db.orderItems ++ ois,
                  tracking := db.tracking ++ [tr] }) ∧
    orderViewSet_create db user inv vendor oid onum items =
      (HttpStatus.created201,
        { db with orders := db.orders ++ [o],
                  orderItems := db.orderItems ++ ois,
                  tracking := db.tracking ++
                    [tr, { orderId := o.id, status := OrderStatus.pending,
                           notes := "Order created successfully",
                           updatedBy := some user.id }] }) ∧
    o.status = OrderStatus.pending ∧
    o.paymentStatus = OrderPaymentStatus.pending ∧
    tr = { orderId := oid, status := OrderStatus.pending,
           notes := "Order created successfully",
           updatedBy := some user.id } := by
  refine ⟨?_, ?_, ?_, ?_, ?_⟩
  · unfold createOrderView_post
    simp [hc, hval, hcr]
  · unfold orderViewSet_create
    simp [hc, hval, hcr]
  · unfold orderCreateSerializer_create at hcr
    cases hb : buildOrderItems inv vendor.id oid items with
    | none => rw [hb] at hcr; exact absurd hcr (by simp)
    | some ois0 =>
      rw [hb] at hcr
      simp only [Option.some.injEq, Prod.mk.injEq] at hcr
      obtain ⟨h1, _, _⟩ := hcr
      subst h1
      rfl
  · unfold orderCreateSerializer_create at hcr
    cases hb : buildOrderItems inv vendor.id oid items with
    | none => rw [hb] at hcr; exact absurd hcr (by simp)
    | some ois0 =>
      rw [hb] at hcr
      simp only [Option.some.injEq, Prod.mk.injEq] at hcr
      obtain ⟨h1, _, _⟩ := hcr
      subst h1
      rfl
  · unfold orderCreateSerializer_create at hcr
    cases hb : buildOrderItems inv vendor.id oid items with
    | none => rw [hb] at hcr; exact absurd hcr (by simp)
    | some ois0 =>
      rw [hb] at hcr
      simp only [Option.some.injEq, Prod.mk.injEq] at hcr
      obtain ⟨_, _, h3⟩ := hcr
      subst h3
      rfl

/-- C8 witness: the persistence theorem at the concrete creation of 2 x
prodA by custA against the empty database. -/
theorem order_create_persistence_witness :
    createOrderView_post dbEmpty custA [invA] vendorA 1 "KAA1" itemsA =
      (HttpStatus.created201,
        { dbEmpty with orders := dbEmpty.orders ++ [oC3],
                       orderItems := dbEmpty.orderItems ++ [oiC3],
                       tracking := dbEmpty.tracking ++ [trC3] }) ∧
    orderViewSet_create dbEmpty custA [invA] vendorA 1 "KAA1" itemsA =
      (HttpStatus.created201,
        { dbEmpty with orders := dbEmpty.orders ++ [oC3],
                       orderItems := dbEmpty.orderItems ++ [oiC3],
                       tracking := dbEmpty.tracking ++
                         [trC3, { orderId := oC3.id,
                                  status := OrderStatus.pending,
                                  notes := "Order created successfully",
                                  updatedBy := some custA.id }] }) ∧
    oC3.status = OrderStatus.pending ∧
    oC3.paymentStatus = OrderPaymentStatus.pending ∧
    trC3 = { orderId := 1, status := OrderStatus.pending,
             notes := "Order created successfully",
             updatedBy := some custA.id } :=
  order_create_persistence dbEmpty custA [invA] vendorA 1 "KAA1" itemsA
    oC3 [oiC3] trC3 (by decide) rfl
    (by
      simp [orderCreateSerializer_create, buildOrderItems, resolveUnitPrice,
        invA, vendorA, prodA, itemsA, oC3, oiC3, trC3, custA]
      norm_num)

/-- C9 counterexample: the estimate endpoint is NOT reachable without
authentication: its permission classes demand an authenticated user, so
an anonymous request is rejected, unlike the M-Pesa callback whose
permission classes are empty. -/
theorem estimate_requires_authentication :
    permitsRequest orderEstimateView_permission_classes none = false ∧
    (orderEstimateView_post dbEmpty none [invA] [vendorA] 1 itemsA 0 0
      (fun _ _ => 0)).1 = HttpStatus.forbidden403 ∧
    permitsRequest mpesaCallbackView_permission_classes none = true := by
  refine ⟨rfl, by decide, rfl⟩

/-- C9 (amended): the estimate endpoint requires authentication; it never
creates or modifies persisted rows (the returned state equals the input
state for every request, authenticated or not), and for an authenticated
request naming an existing vendor with priceable items it answers 200
with a body carrying the per-item pricing, subtotal, fees, distance and
deliverability flags. -/
theorem order_estimate_no_persistence
    (db : Db) (user : Option User) (inv : List VendorInventory)
    (vendors : List VendorProfile) (vid : Nat) (items : List ItemData)
    (deliveryLat deliveryLng : ℚ) (geoKm : ℚ × ℚ → ℚ × ℚ → ℚ)
    (vendor : VendorProfile) (eitems : List EstimateItem)
    (hu : user.isSome = true)
    (hv : vendors.find? (fun v => v.id == vid) = some vendor)
    (hi : buildEstimateItems inv vendor.id items = some eitems) :
    (∀ u2 : Option User,
      (orderEstimateView_post db u2 inv vendors vid items deliveryLat
        deliveryLng geoKm).2.2 = db) ∧
    (orderEstimateView_post db user inv vendors vid items deliveryLat
      deliveryLng geoKm).1 = HttpStatus.ok200 ∧
    ((orderEstimateView_post db user inv vendors vid items deliveryLat
      deliveryLng geoKm).2.1).map (fun b => b.items) = some eitems ∧
    ((orderEstimateView_post db user inv vendors vid items deliveryLat
      deliveryLng geoKm).2.1).map (fun b => b.subtotal) =
        some ((eitems.map (fun x => x.totalPrice)).sum) ∧
    ((orderEstimateView_post db user inv vendors vid items deliveryLat
      deliveryLng geoKm).2.1).map (fun b => b.deliveryFee) =
        some vendor.deliveryFee ∧
    ((orderEstimateView_post db user inv vendors vid items deliveryLat
      deliveryLng geoKm).2.1).map (fun b => b.totalAmount) =
        some ((eitems.map (fun x => x.totalPrice)).sum + vendor.deliveryFee) ∧
    ((orderEstimateView_post db user inv vendors vid items deliveryLat
      deliveryLng geoKm).2.1).isSome = true := by
  have hp : permitsRequest orderEstimateView_permission_classes user = true := by
    simp [permitsRequest, orderEstimateView_permission_classes, hu]
  refine ⟨?_, ?_, ?_, ?_, ?_, ?_, ?_⟩
  · intro u2
    unfold orderEstimateView_post
    split
    · rfl
    · split
      · rfl
      · split
        · rfl
        · rfl
  · unfold orderEstimateView_post
    simp [hp, hv, hi]
  · unfold orderEstimateView_post
    simp [hp, hv, hi]
  · unfold orderEstimateView_post
    simp [hp, hv, hi]
  · unfold orderEstimateView_post
    simp [hp, hv, hi]
  · unfold orderEstimateView_post
    simp [hp, hv, hi]
  · unfold orderEstimateView_post
    simp [hp, hv, hi]

/-- C9 witness: the estimate theorem at the concrete request of custA for
2 x prodA from vendorA (priced 2500 each from inventory, in stock). -/
theorem order_estimate_no_persistence_witness :
    (∀ u2 : Option User,
      (orderEstimateView_post dbA u2 [invA] [vendorA] 1 itemsA 1 36
        (fun _ _ => 2)).2.2 = dbA) ∧
    (orderEstimateView_post dbA (some custA) [invA] [vendorA] 1 itemsA 1 36
      (fun _ _ => 2)).1 = HttpStatus.ok200 ∧
    ((orderEstimateView_post dbA (some custA) [invA] [vendorA] 1 itemsA 1 36
      (fun _ _ => 2)).2.1).map (fun b => b.items) = some [eitemC9] ∧
    ((orderEstimateView_post dbA (some custA) [invA] [vendorA] 1 itemsA 1 36
      (fun _ _ => 2)).2.1).map (fun b => b.subtotal) =
        some (([eitemC9].map (fun x => x.totalPrice)).sum) ∧
    ((orderEstimateView_post dbA (some custA) [invA] [vendorA] 1 itemsA 1 36
      (fun _ _ => 2)).2.1).map (fun b => b.deliveryFee) =
        some vendorA.deliveryFee ∧
    ((orderEstimateView_post dbA (some custA) [invA] [vendorA] 1 itemsA 1 36
      (fun _ _ => 2)).2.1).map (fun b => b.totalAmount) =
        some (([eitemC9].map (fun x => x.totalPrice)).sum + vendorA.deliveryFee) ∧
    ((orderEstimateView_post dbA (some custA) [invA] [vendorA] 1 itemsA 1 36
      (fun _ _ => 2)).2.1).isSome = true :=
  order_estimate_no_persistence dbA (some custA) [invA] [vendorA] 1 itemsA
    1 36 (fun _ _ => 2) vendorA [eitemC9] rfl (by decide)
    (by
      simp [buildEstimateItems, VendorInventory.availableStock, invA, prodA,
        itemsA, eitemC9, vendorA]
      norm_num)

end KaanaGas
